import Mathlib

/-!
Shallow embedding of `shared_future_adaptor.hpp`: a memoizing adaptor that
turns a move-only ("unique") future into a copyable shared future.

The shared `std::variant<Future, result_type>` cell is modelled by `State`,
the heap of reference-counted cells by `World` (a list of cells), and an
adaptor handle by its member `variant_ptr_` (an optional index into the
world; `none` models a null `std::shared_ptr`).  The underlying move-only
future is modelled by the capability contract the header requires of it:
a validity query, a readiness query, a blocking wait, and a consuming
retrieval whose outcome is a value or an opaque error.  Operations that
invoke the underlying future return invocation counts, mirroring the
instrumented-future testing strategy: `get` reports how many times the
underlying consuming retrieval ran, `wait` how many times the underlying
blocking wait ran.
-/

instance {ε α : Type} [DecidableEq ε] [DecidableEq α] : DecidableEq (Except ε α)
  | Except.ok a, Except.ok b =>
    if h : a = b then isTrue (by rw [h]) else isFalse (by intro hh; cases hh; exact h rfl)
  | Except.ok _, Except.error _ => isFalse (by intro h; cases h)
  | Except.error _, Except.ok _ => isFalse (by intro h; cases h)
  | Except.error e, Except.error e2 =>
    if h : e = e2 then isTrue (by rw [h]) else isFalse (by intro hh; cases hh; exact h rfl)

/-- The underlying move-only future, reduced to the capability contract
`shared_future_adaptor` consumes: `is_valid` (validity query used at
construction), `is_ready` (non-consuming readiness query), and the outcome
that its consuming retrieval `get()` would produce (a value or an opaque
error, here tagged by a `String`). -/
structure Future (α : Type) where
  is_valid : Bool
  is_ready : Bool
  outcome : Except String α
deriving DecidableEq

/-- A future that has been moved from is no longer valid. -/
def Future.movedFrom {α : Type} (f : Future α) : Future α :=
  { f with is_valid := false }

/-- The consuming retrieval invalidates the future it consumed. -/
def Future.consumed {α : Type} (f : Future α) : Future α :=
  { f with is_valid := false }

/-- The shared state cell `state_type = std::variant<Future, result_type>`:
`pending` holds the wrapped, not-yet-consumed future; `ready` holds the
cached result. -/
inductive State (α : Type) where
  | pending : Future α → State α
  | ready : α → State α
deriving DecidableEq

/-- Rank used only to justify the termination of `get_visitor`'s
self-recursion on the rebound variant. -/
def State.rank {α : Type} : State α → Nat
  | State.pending _ => 1
  | State.ready _ => 0

/-- `is_ready_visitor` of the source: `true` on the cached result
alternative, and the underlying future's own readiness answer on the
`Future` alternative.  Both overloads take const references: the visitor
never mutates the variant. -/
def is_ready_visitor {α : Type} : State α → Bool
  | State.ready _ => true
  | State.pending f => f.is_ready

/-- `wait_visitor` of the source: the result alternative gets an empty
body (immediate return), the `Future` alternative delegates to
`underlying_future.wait()`.  The returned pair is the (unmodified) variant
and the number of underlying `wait` invocations; the visitor assigns
nothing to the variant, and the underlying `wait` is non-consuming. -/
def wait_visitor {α : Type} : State α → State α × Nat
  | State.ready v => (State.ready v, 0)
  | State.pending f => (State.pending f, 1)

/-- `get_visitor` of the source: on the result alternative, return the
cached value.  On the `Future` alternative, invoke the underlying
consuming retrieval (`result = underlying_future.get()`), assign the
produced value into the variant (`self = std::move(result)`), then
recurse on the rebound variant to return the stored value.  If the
retrieval signals an error, the assignment never executes: the error
propagates and the variant keeps the `Future` alternative, now consumed.
Returns (retrieval outcome, final variant, number of underlying consuming
retrievals). -/
def get_visitor {α : Type} (s : State α) : Except String α × State α × Nat :=
  match s with
  | State.ready v => (Except.ok v, State.ready v, 0)
  | State.pending f =>
    match f.outcome with
    | Except.error e => (Except.error e, State.pending f.consumed, 1)
    | Except.ok v => ((get_visitor (State.ready v)).1, State.ready v, 1)
termination_by s.rank
decreasing_by simp [State.rank]

/-- The heap of shared state cells; `std::shared_ptr` aliasing between
adaptor copies is modelled by equal indices into this list. -/
abbrev World (α : Type) : Type := List (State α)

/-- Dereference a cell pointer (`*variant_ptr_` when the index is live). -/
def World.read {α : Type} (w : World α) (i : Nat) : Option (State α) :=
  List.get? w i

/-- Store a rebound variant back into its cell. -/
def World.write {α : Type} (w : World α) (i : Nat) (s : State α) : World α :=
  List.set w i s

/-- The adaptor handle: its single data member
`std::shared_ptr<state_type> variant_ptr_`, null when the adaptor was
built from an invalid source future. -/
structure shared_future_adaptor where
  variant_ptr_ : Option Nat
deriving DecidableEq

/-- The constructor `shared_future_adaptor(Future& unique_future)`: if the
source future is valid, move it into a freshly allocated state cell
holding the `Future` alternative (`std::make_shared<state_type>(std::move
(unique_future))`) and point the adaptor at it; otherwise leave
`variant_ptr_` null and the source untouched.  Returns the extended world,
the new adaptor, and the source future as the constructor leaves it. -/
def shared_future_adaptor.construct {α : Type} (w : World α) (f : Future α) :
    World α × shared_future_adaptor × Future α :=
  if f.is_valid then
    (w ++ [State.pending f], ⟨some (List.length w)⟩, f.movedFrom)
  else
    (w, ⟨none⟩, f)

/-- `valid()`: `static_cast<bool>(variant_ptr_)`. -/
def shared_future_adaptor.valid (a : shared_future_adaptor) : Bool :=
  a.variant_ptr_.isSome

/-- Copy construction: the copy's `shared_ptr` refers to the same cell. -/
def shared_future_adaptor.copy (a : shared_future_adaptor) : shared_future_adaptor :=
  ⟨a.variant_ptr_⟩

/-- `is_ready()`: `std::visit(is_ready_visitor(), *variant_ptr_)` with no
null check; `none` models the undefined dereference of a null
`variant_ptr_`. -/
def shared_future_adaptor.is_ready {α : Type} (w : World α)
    (a : shared_future_adaptor) : Option Bool :=
  match a.variant_ptr_ with
  | none => none
  | some i =>
    match World.read w i with
    | none => none
    | some s => some (is_ready_visitor s)

/-- `wait()`: `std::visit(wait_visitor(), *variant_ptr_)` with no null
check; on success returns the world after the visit and the number of
underlying `wait` invocations. -/
def shared_future_adaptor.wait {α : Type} (w : World α)
    (a : shared_future_adaptor) : Option (World α × Nat) :=
  match a.variant_ptr_ with
  | none => none
  | some i =>
    match World.read w i with
    | none => none
    | some s => some (World.write w i (wait_visitor s).1, (wait_visitor s).2)

/-- `get()`: visit `*variant_ptr_` with `get_visitor` (whose `self` member
is that same variant) and return the produced reference, with no null
check; on success returns the retrieval outcome, the world after the
visit, and the number of underlying consuming retrievals. -/
def shared_future_adaptor.get {α : Type} (w : World α)
    (a : shared_future_adaptor) : Option (Except String α × World α × Nat) :=
  match a.variant_ptr_ with
  | none => none
  | some i =>
    match World.read w i with
    | none => none
    | some s => some ((get_visitor s).1, World.write w i (get_visitor s).2.1,
        (get_visitor s).2.2)

/-- The three public operations on a valid adaptor, as events acting on
its state cell. -/
inductive Op where
  | isReadyOp
  | waitOp
  | getOp
deriving DecidableEq

/-- Effect of one public operation on the shared state cell:
`is_ready_visitor` takes const references and cannot rebind the variant;
`wait_visitor` and `get_visitor` leave behind the variant they produce. -/
def stepState {α : Type} (s : State α) : Op → State α
  | Op.isReadyOp => s
  | Op.waitOp => (wait_visitor s).1
  | Op.getOp => (get_visitor s).2.1

/-- Run a sequence of public operations against one state cell. -/
def runOps {α : Type} (s : State α) (ops : List Op) : State α :=
  List.foldl stepState s ops

/-- Program counter of one thread inside a call to the source's `get()`,
which contains no lock, atomic, or other synchronization: either the
thread has not yet performed the `std::visit` dispatch on the variant; or
the dispatch found the `Future` alternative and the visitor now holds a
reference to it; or the call has returned. -/
inductive PC (α : Type) where
  | atStart
  | sawFuture (f : Future α)
  | finished
deriving DecidableEq

/-- Shared cell plus the program counters of two threads concurrently
inside `get()`, and the running count of underlying consuming
retrievals. -/
structure RaceState (α : Type) where
  cell : State α
  pc1 : PC α
  pc2 : PC α
  consumes : Nat
deriving DecidableEq

/-- One atomic step of a thread executing the source's unsynchronized
`get()`: first the `std::visit` dispatch reads which alternative the
variant holds (capturing a reference to the `Future` if pending); then a
thread whose dispatch found the `Future` invokes the consuming retrieval
and assigns the produced value into the variant.  Nothing guards the gap
between the dispatch and the assignment. -/
def threadStep {α : Type} (cell : State α) (pc : PC α) : State α × PC α × Nat :=
  match pc with
  | PC.atStart =>
    match cell with
    | State.ready v => (State.ready v, PC.finished, 0)
    | State.pending f => (State.pending f, PC.sawFuture f, 0)
  | PC.sawFuture f =>
    match f.outcome with
    | Except.ok v => (State.ready v, PC.finished, 1)
    | Except.error _ => (cell, PC.finished, 1)
  | PC.finished => (cell, PC.finished, 0)

/-- Run one scheduled thread (`true` = thread 1, `false` = thread 2) for
one step. -/
def raceStep {α : Type} (rs : RaceState α) (t : Bool) : RaceState α :=
  if t then
    let r := threadStep rs.cell rs.pc1
    ⟨r.1, r.2.1, rs.pc2, rs.consumes + r.2.2⟩
  else
    let r := threadStep rs.cell rs.pc2
    ⟨r.1, rs.pc1, r.2.1, rs.consumes + r.2.2⟩

/-- Run two concurrent `get()` calls under a given interleaving. -/
def runRace {α : Type} (rs : RaceState α) (sched : List Bool) : RaceState α :=
  List.foldl raceStep rs sched

/-! ## Helper lemmas about the heap of cells -/

theorem World.read_write_self {α : Type} (w : World α) (i : Nat) (s s0 : State α)
    (h : World.read w i = some s0) : World.read (World.write w i s) i = some s := by
  induction w generalizing i with
  | nil => simp [World.read, List.get?] at h
  | cons x xs ih =>
    cases i with
    | zero => rfl
    | succ n => exact ih n h

theorem World.write_read_self {α : Type} (w : World α) (i : Nat) (s : State α)
    (h : World.read w i = some s) : World.write w i s = w := by
  induction w generalizing i with
  | nil => simp [World.read, List.get?] at h
  | cons x xs ih =>
    cases i with
    | zero =>
      have hx : x = s := Option.some.inj h
      subst hx
      rfl
    | succ n =>
      show x :: World.write xs n s = x :: xs
      rw [ih n h]

theorem World.read_append_length {α : Type} (w : World α) (s : State α) :
    World.read (w ++ [s]) (List.length w) = some s := by
  induction w with
  | nil => rfl
  | cons x xs ih => exact ih

/-! ## Computation lemmas for the visitors -/

theorem get_visitor_ready {α : Type} (v : α) :
    get_visitor (State.ready v) = (Except.ok v, State.ready v, 0) := by
  simp [get_visitor]

theorem get_visitor_pending_ok {α : Type} (f : Future α) (v : α)
    (hv : f.outcome = Except.ok v) :
    get_visitor (State.pending f) = (Except.ok v, State.ready v, 1) := by
  rw [get_visitor]
  simp [hv, get_visitor_ready]

theorem get_visitor_pending_error {α : Type} (f : Future α) (e : String)
    (he : f.outcome = Except.error e) :
    get_visitor (State.pending f) = (Except.error e, State.pending f.consumed, 1) := by
  rw [get_visitor]
  simp [he]

theorem World.write_write_self {α : Type} (w : World α) (i : Nat) (s s2 : State α) :
    World.write (World.write w i s) i s2 = World.write w i s2 := by
  induction w generalizing i with
  | nil => rfl
  | cons x xs ih =>
    cases i with
    | zero => rfl
    | succ n =>
      show x :: World.write (World.write xs n s) n s2 = x :: World.write xs n s2
      rw [ih n]

/-! ## Claims -/

/-- C1: on an adaptor whose cell holds `Pending f`, the first `get()`
invokes the underlying consuming retrieval exactly once, replaces
`Pending` with `Ready` holding the produced value, and returns that
value; afterwards any adaptor sharing the same cell (including the same
adaptor) gets the same cached value from `get()` with zero further
underlying retrievals, and the cell is left unchanged. -/
theorem get_memoizes {α : Type} (w : World α) (a b : shared_future_adaptor)
    (i : Nat) (f : Future α) (v : α)
    (ha : a.variant_ptr_ = some i) (hb : b.variant_ptr_ = some i)
    (hs : World.read w i = some (State.pending f))
    (hv : f.outcome = Except.ok v) :
    shared_future_adaptor.get w a =
      some (Except.ok v, World.write w i (State.ready v), 1) ∧
    World.read (World.write w i (State.ready v)) i = some (State.ready v) ∧
    shared_future_adaptor.get (World.write w i (State.ready v)) b =
      some (Except.ok v, World.write w i (State.ready v), 0) := by
  have hr : World.read (World.write w i (State.ready v)) i = some (State.ready v) :=
    World.read_write_self w i _ _ hs
  refine ⟨?_, hr, ?_⟩
  · simp [shared_future_adaptor.get, ha, hs, get_visitor_pending_ok f v hv]
  · simp [shared_future_adaptor.get, hb, hr, get_visitor_ready,
      World.write_write_self]

/-- Witness for C1 at a concrete world: one cell wrapping a future whose
retrieval yields 42. -/
theorem get_memoizes_witness :
    shared_future_adaptor.get [State.pending (Future.mk true true (Except.ok 42))]
        ⟨some 0⟩ =
      some (Except.ok 42,
        World.write [State.pending (Future.mk true true (Except.ok 42))] 0
          (State.ready 42), 1) ∧
    World.read
        (World.write [State.pending (Future.mk true true (Except.ok 42))] 0
          (State.ready 42)) 0 = some (State.ready 42) ∧
    shared_future_adaptor.get
        (World.write [State.pending (Future.mk true true (Except.ok 42))] 0
          (State.ready 42)) ⟨some 0⟩ =
      some (Except.ok 42,
        World.write [State.pending (Future.mk true true (Except.ok 42))] 0
          (State.ready 42), 0) :=
  get_memoizes [State.pending (Future.mk true true (Except.ok 42))]
    ⟨some 0⟩ ⟨some 0⟩ 0 (Future.mk true true (Except.ok 42)) 42 rfl rfl rfl rfl

/-- C2: the state machine of one cell is one-directional.  `is_ready` and
`wait` never change the cell; `get` maps `Ready v` to `Ready v`; and along
any sequence of operations, once the cell is `Ready v` it stays exactly
`Ready v` — the `Pending → Ready` transition can only be fired by a
`get`, and never reverts. -/
theorem state_machine_one_directional {α : Type} (s : State α) (ops : List Op)
    (v : α) :
    stepState s Op.isReadyOp = s ∧
    stepState s Op.waitOp = s ∧
    stepState (State.ready v) Op.getOp = State.ready v ∧
    (s = State.ready v → runOps s ops = State.ready v) := by
  refine ⟨rfl, ?_, ?_, ?_⟩
  · cases s <;> rfl
  · simp [stepState, get_visitor_ready]
  · intro h
    subst h
    induction ops with
    | nil => rfl
    | cons op rest ih =>
      have hstep : stepState (State.ready v) op = State.ready v := by
        cases op with
        | isReadyOp => rfl
        | waitOp => rfl
        | getOp => simp [stepState, get_visitor_ready]
      show runOps (stepState (State.ready v) op) rest = State.ready v
      rw [hstep]
      exact ih

/-- Witness for C2: a ready cell holding 7 stays `Ready 7` under the
operation sequence is_ready, wait, get, get. -/
theorem state_machine_one_directional_witness :
    stepState (State.ready (7 : Nat)) Op.isReadyOp = State.ready 7 ∧
    stepState (State.ready (7 : Nat)) Op.waitOp = State.ready 7 ∧
    stepState (State.ready (7 : Nat)) Op.getOp = State.ready 7 ∧
    (State.ready (7 : Nat) = State.ready 7 →
      runOps (State.ready (7 : Nat)) [Op.isReadyOp, Op.waitOp, Op.getOp, Op.getOp] =
        State.ready 7) :=
  state_machine_one_directional (State.ready (7 : Nat))
    [Op.isReadyOp, Op.waitOp, Op.getOp, Op.getOp] 7

/-- C3 (behavior the code actually has): the source checks nothing before
dereferencing `variant_ptr_`.  On an adaptor holding no state, `valid()`
is false, yet `is_ready()`, `wait()` and `get()` all dereference the null
pointer — modelled as `none`, no defined result — instead of surfacing an
`InvalidHandle` error to the caller.  No `InvalidHandle` value exists
anywhere in the code. -/
theorem invalid_adaptor_operations_undefined :
    shared_future_adaptor.valid ⟨none⟩ = false ∧
    shared_future_adaptor.is_ready ([] : World Nat) ⟨none⟩ = none ∧
    shared_future_adaptor.wait ([] : World Nat) ⟨none⟩ = none ∧
    shared_future_adaptor.get ([] : World Nat) ⟨none⟩ = none :=
  ⟨rfl, rfl, rfl, rfl⟩

/-- C4: the constructor inspects the source future's validity.  A valid
source is moved into a fresh `Pending` cell appended to the world, the
new adaptor points at that cell and is `valid()`; an invalid source
allocates nothing, the adaptor has a null pointer and is not `valid()`,
and the construction is a total function (no exception path). -/
theorem construct_validity {α : Type} (w : World α) (f : Future α) :
    ((shared_future_adaptor.construct w f).2.1.valid = f.is_valid) ∧
    (f.is_valid = true →
      shared_future_adaptor.construct w f =
        (w ++ [State.pending f], ⟨some (List.length w)⟩, f.movedFrom) ∧
      World.read (shared_future_adaptor.construct w f).1 (List.length w) =
        some (State.pending f)) ∧
    (f.is_valid = false →
      shared_future_adaptor.construct w f = (w, ⟨none⟩, f)) := by
  refine ⟨?_, ?_, ?_⟩
  · cases hf : f.is_valid <;>
      simp [shared_future_adaptor.construct, shared_future_adaptor.valid, hf]
  · intro hf
    constructor
    · simp [shared_future_adaptor.construct, hf]
    · simp [shared_future_adaptor.construct, hf, World.read_append_length]
  · intro hf
    simp [shared_future_adaptor.construct, hf]

/-- Witness for C4, at a valid and at an invalid concrete source. -/
theorem construct_validity_witness :
    (shared_future_adaptor.construct ([] : World Nat)
        (Future.mk true false (Except.ok 7))).2.1.valid = true ∧
    shared_future_adaptor.construct ([] : World Nat)
        (Future.mk true false (Except.ok 7)) =
      ([State.pending (Future.mk true false (Except.ok 7))], ⟨some 0⟩,
        (Future.mk true false (Except.ok 7)).movedFrom) ∧
    (shared_future_adaptor.construct ([] : World Nat)
        (Future.mk false false (Except.ok 7))).2.1.valid = false ∧
    shared_future_adaptor.construct ([] : World Nat)
        (Future.mk false false (Except.ok 7)) =
      ([], ⟨none⟩, Future.mk false false (Except.ok 7)) := by
  have h1 := construct_validity ([] : World Nat) (Future.mk true false (Except.ok 7))
  have h2 := construct_validity ([] : World Nat) (Future.mk false false (Except.ok 7))
  exact ⟨h1.1, (h1.2.1 rfl).1, h2.1, h2.2.2 rfl⟩

/-- C5: on a valid adaptor, `is_ready()` answers `true` when the cell is
`Ready`, and answers exactly the underlying future's own readiness when
the cell is `Pending`; as an operation on the cell it is the identity (the
visitor takes const references and performs no transition). -/
theorem is_ready_observational {α : Type} (w : World α)
    (a : shared_future_adaptor) (i : Nat) (s : State α)
    (ha : a.variant_ptr_ = some i) (hs : World.read w i = some s) :
    (∀ v : α, s = State.ready v → shared_future_adaptor.is_ready w a = some true) ∧
    (∀ f : Future α, s = State.pending f →
      shared_future_adaptor.is_ready w a = some f.is_ready) ∧
    stepState s Op.isReadyOp = s := by
  refine ⟨?_, ?_, rfl⟩
  · intro v hv
    subst hv
    simp [shared_future_adaptor.is_ready, ha, hs, is_ready_visitor]
  · intro f hf
    subst hf
    simp [shared_future_adaptor.is_ready, ha, hs, is_ready_visitor]

/-- Witness for C5 on a pending cell whose underlying future is not yet
ready: `is_ready()` reports the underlying answer `false`. -/
theorem is_ready_observational_witness :
    (∀ v : Nat, State.pending (Future.mk true false (Except.ok 5)) = State.ready v →
      shared_future_adaptor.is_ready
        [State.pending (Future.mk true false (Except.ok 5))] ⟨some 0⟩ = some true) ∧
    (∀ f : Future Nat,
      State.pending (Future.mk true false (Except.ok 5)) = State.pending f →
      shared_future_adaptor.is_ready
        [State.pending (Future.mk true false (Except.ok 5))] ⟨some 0⟩ =
        some f.is_ready) ∧
    stepState (State.pending (Future.mk true false (Except.ok 5))) Op.isReadyOp =
      State.pending (Future.mk true false (Except.ok 5)) :=
  is_ready_observational [State.pending (Future.mk true false (Except.ok 5))]
    ⟨some 0⟩ 0 (State.pending (Future.mk true false (Except.ok 5))) rfl rfl

/-- C6: on a valid adaptor, `wait()` on a `Ready` cell returns with zero
underlying `wait` invocations (a no-op that never touches the future,
because no future is stored), on a `Pending` cell it performs exactly one
underlying blocking wait, and in both cases the world — hence the cell —
is returned unchanged: `wait()` never fires the transition. -/
theorem wait_no_transition {α : Type} (w : World α)
    (a : shared_future_adaptor) (i : Nat) (s : State α)
    (ha : a.variant_ptr_ = some i) (hs : World.read w i = some s) :
    (∀ v : α, s = State.ready v → shared_future_adaptor.wait w a = some (w, 0)) ∧
    (∀ f : Future α, s = State.pending f →
      shared_future_adaptor.wait w a = some (w, 1)) ∧
    stepState s Op.waitOp = s := by
  have hw : World.write w i s = w := World.write_read_self w i s hs
  refine ⟨?_, ?_, ?_⟩
  · intro v hv
    subst hv
    simp [shared_future_adaptor.wait, ha, hs, wait_visitor, hw]
  · intro f hf
    subst hf
    simp [shared_future_adaptor.wait, ha, hs, wait_visitor, hw]
  · cases s <;> rfl

/-- Witness for C6 on a ready cell: zero underlying waits, world
unchanged. -/
theorem wait_no_transition_witness :
    (∀ v : Nat, State.ready 3 = State.ready v →
      shared_future_adaptor.wait [State.ready (3 : Nat)] ⟨some 0⟩ =
        some ([State.ready 3], 0)) ∧
    (∀ f : Future Nat, State.ready 3 = State.pending f →
      shared_future_adaptor.wait [State.ready (3 : Nat)] ⟨some 0⟩ =
        some ([State.ready 3], 1)) ∧
    stepState (State.ready (3 : Nat)) Op.waitOp = State.ready 3 :=
  wait_no_transition [State.ready (3 : Nat)] ⟨some 0⟩ 0 (State.ready 3) rfl rfl

/-- C7: an adaptor copy carries the same `shared_ptr`, so it refers to the
same single cell; after copy A's first `get()` consumed the future and
cached the value, copy B's `get()` on the post-transition world returns
the identical cached value with zero further consuming retrievals. -/
theorem copies_share_state {α : Type} (w : World α) (a : shared_future_adaptor)
    (i : Nat) (f : Future α) (v : α)
    (ha : a.variant_ptr_ = some i)
    (hs : World.read w i = some (State.pending f))
    (hv : f.outcome = Except.ok v) :
    (shared_future_adaptor.copy a).variant_ptr_ = a.variant_ptr_ ∧
    shared_future_adaptor.get w a =
      some (Except.ok v, World.write w i (State.ready v), 1) ∧
    shared_future_adaptor.get (World.write w i (State.ready v))
        (shared_future_adaptor.copy a) =
      some (Except.ok v, World.write w i (State.ready v), 0) := by
  have hr : World.read (World.write w i (State.ready v)) i = some (State.ready v) :=
    World.read_write_self w i _ _ hs
  refine ⟨rfl, ?_, ?_⟩
  · simp [shared_future_adaptor.get, ha, hs, get_visitor_pending_ok f v hv]
  · simp [shared_future_adaptor.get, shared_future_adaptor.copy, ha, hr,
      get_visitor_ready, World.write_write_self]

/-- Witness for C7 on a one-cell world caching 11 after copy A's get. -/
theorem copies_share_state_witness :
    (shared_future_adaptor.copy ⟨some 0⟩).variant_ptr_ =
      (⟨some 0⟩ : shared_future_adaptor).variant_ptr_ ∧
    shared_future_adaptor.get [State.pending (Future.mk true true (Except.ok 11))]
        ⟨some 0⟩ =
      some (Except.ok 11,
        World.write [State.pending (Future.mk true true (Except.ok 11))] 0
          (State.ready 11), 1) ∧
    shared_future_adaptor.get
        (World.write [State.pending (Future.mk true true (Except.ok 11))] 0
          (State.ready 11)) (shared_future_adaptor.copy ⟨some 0⟩) =
      some (Except.ok 11,
        World.write [State.pending (Future.mk true true (Except.ok 11))] 0
          (State.ready 11), 0) :=
  copies_share_state [State.pending (Future.mk true true (Except.ok 11))]
    ⟨some 0⟩ 0 (Future.mk true true (Except.ok 11)) 11 rfl rfl rfl

/-- C8: when the underlying consuming retrieval signals an error, `get()`
on a `Pending` cell surfaces exactly that error to the caller — the code
has no catch, translation, or retry — after exactly one retrieval
attempt, and the error is not cached as a successful `Ready` value: the
cell keeps the `Pending` shape, now holding the consumed future. -/
theorem get_propagates_error {α : Type} (w : World α)
    (a : shared_future_adaptor) (i : Nat) (f : Future α) (e : String)
    (ha : a.variant_ptr_ = some i)
    (hs : World.read w i = some (State.pending f))
    (he : f.outcome = Except.error e) :
    shared_future_adaptor.get w a =
      some (Except.error e, World.write w i (State.pending f.consumed), 1) ∧
    World.read (World.write w i (State.pending f.consumed)) i =
      some (State.pending f.consumed) ∧
    (∀ v : α, World.read (World.write w i (State.pending f.consumed)) i ≠
      some (State.ready v)) := by
  have hr : World.read (World.write w i (State.pending f.consumed)) i =
      some (State.pending f.consumed) :=
    World.read_write_self w i _ _ hs
  refine ⟨?_, hr, ?_⟩
  · simp [shared_future_adaptor.get, ha, hs, get_visitor_pending_error f e he]
  · intro v hcontra
    rw [hr] at hcontra
    cases hcontra

/-- Witness for C8 with a concrete future whose retrieval signals
"broken". -/
theorem get_propagates_error_witness :
    shared_future_adaptor.get
        [State.pending (Future.mk true true (Except.error "broken" : Except String Nat))]
        ⟨some 0⟩ =
      some (Except.error "broken",
        World.write
          [State.pending (Future.mk true true (Except.error "broken" : Except String Nat))]
          0 (State.pending (Future.mk true true
            (Except.error "broken" : Except String Nat)).consumed), 1) ∧
    World.read
        (World.write
          [State.pending (Future.mk true true (Except.error "broken" : Except String Nat))]
          0 (State.pending (Future.mk true true
            (Except.error "broken" : Except String Nat)).consumed)) 0 =
      some (State.pending (Future.mk true true
        (Except.error "broken" : Except String Nat)).consumed) ∧
    (∀ v : Nat,
      World.read
          (World.write
            [State.pending (Future.mk true true (Except.error "broken" : Except String Nat))]
            0 (State.pending (Future.mk true true
              (Except.error "broken" : Except String Nat)).consumed)) 0 ≠
        some (State.ready v)) :=
  get_propagates_error
    [State.pending (Future.mk true true (Except.error "broken" : Except String Nat))]
    ⟨some 0⟩ 0 (Future.mk true true (Except.error "broken")) "broken" rfl rfl rfl

/-- C9 (behavior the code actually has): the source's `get()` contains no
mutual exclusion or atomic discipline, so under the interleaving where
both threads perform the `std::visit` dispatch while the cell is still
`Pending` before either assigns, both invoke the underlying consuming
retrieval: two retrievals, not the exactly one the claim requires. -/
theorem unsynchronized_get_double_consume :
    (runRace
      ⟨State.pending (Future.mk true true (Except.ok (42 : Nat))),
        PC.atStart, PC.atStart, 0⟩
      [true, false, true, false]).consumes = 2 := rfl

/-- C10: the constructor moves from the source future only after its
validity query answered true; an invalid source is left exactly as it
was (not moved from, not otherwise modified), and no cell is
allocated. -/
theorem construct_invalid_source_untouched {α : Type} (w : World α)
    (f : Future α) (h : f.is_valid = false) :
    (shared_future_adaptor.construct w f).2.2 = f ∧
    shared_future_adaptor.construct w f = (w, ⟨none⟩, f) := by
  constructor <;> simp [shared_future_adaptor.construct, h]

/-- Witness for C10 with a concrete invalid source future. -/
theorem construct_invalid_source_untouched_witness :
    (shared_future_adaptor.construct ([] : World Nat)
        (Future.mk false true (Except.ok 9))).2.2 =
      Future.mk false true (Except.ok 9) ∧
    shared_future_adaptor.construct ([] : World Nat)
        (Future.mk false true (Except.ok 9)) =
      ([], ⟨none⟩, Future.mk false true (Except.ok 9)) :=
  construct_invalid_source_untouched ([] : World Nat)
    (Future.mk false true (Except.ok 9)) rfl
